import Mathlib

/-!
Verification of the MAGDA DSL interpreter core (magda-agents repository).

The Python sources embedded here:
  * `dsl_parser.py`              — `MagdaDSLGrammar` (direct list-append variant)
  * `dsl_parser_functional.py`   — `ReaperFunctionalInterpreter`, `ReaperDSLGrammar`
  * `dsl_parser_action_paradigm.py` — Action-paradigm grammar and `MagdaActionCollector`

Python values are modelled by the closed tagged union `PyVal`; Python dicts by
insertion-ordered association lists; raising code by `Except String`, the
string being the raised message.
-/

set_option linter.unusedVariables false

/-- Model of a Python value as it flows through the DSL interpreter:
    None, bool, int, float, str, list or dict (insertion-ordered). -/
inductive PyVal where
  | none : PyVal
  | bool (b : Bool) : PyVal
  | int (n : Int) : PyVal
  | float (q : Rat) : PyVal
  | str (s : String) : PyVal
  | list (xs : List PyVal) : PyVal
  | dict (entries : List (String × PyVal)) : PyVal
deriving Repr

/-- A Python `dict[str, Any]` with insertion order. -/
abbrev Dict := List (String × PyVal)

/-- First-occurrence lookup, i.e. Python `d[k]` / `k in d` probing. -/
def dictLookup (d : Dict) (k : String) : Option PyVal :=
  match d with
  | [] => Option.none
  | (k2, v) :: rest => if k2 = k then some v else dictLookup rest k

/-- Python `d.get(k, default)`. -/
def pyGet (d : Dict) (k : String) (dflt : PyVal) : PyVal :=
  (dictLookup d k).getD dflt

/-- Python `d[k] = v`: replaces in place if the key exists, else appends. -/
def dictSet (d : Dict) (k : String) (v : PyVal) : Dict :=
  match d with
  | [] => [(k, v)]
  | (k2, w) :: rest => if k2 = k then (k2, v) :: rest else (k2, w) :: dictSet rest k v

/-- Python truthiness of a value. -/
def truthy : PyVal → Bool
  | .none => false
  | .bool b => b
  | .int n => n ≠ 0
  | .float q => q ≠ 0
  | .str s => s ≠ ""
  | .list xs => !xs.isEmpty
  | .dict es => !es.isEmpty

/-- Python `type(v).__name__`. -/
def typeName : PyVal → String
  | .none => "NoneType"
  | .bool _ => "bool"
  | .int _ => "int"
  | .float _ => "float"
  | .str _ => "str"
  | .list _ => "list"
  | .dict _ => "dict"

/-- Python `s.rstrip(chars)`: removes ALL trailing characters that are members
    of the character set `chars` (not a suffix removal). -/
def pyRstrip (s chars : String) : String :=
  String.mk ((s.data.reverse.dropWhile (fun c => chars.data.contains c)).reverse)

/-- Python `s.lstrip(chars)` for a single-character set. -/
def pyLstrip (s chars : String) : String :=
  String.mk (s.data.dropWhile (fun c => chars.data.contains c))

namespace DP

/-!
Embedding of `dsl_parser.py` (`MagdaDSLGrammar`).  The mutable object state is
`MagdaState`; each `@method` handler becomes a function
`args → MagdaState → Except String MagdaState`.
-/

/-- The mutable fields of `MagdaDSLGrammar`: `self.actions`,
    `self.current_track_index`, `self.track_counter`, `self.state`. -/
structure MagdaState where
  actions : List Dict
  current_track_index : Int
  track_counter : Int
  state : Option Dict
deriving Repr

/-- State after `__init__` / `reset`. -/
def initState : MagdaState :=
  { actions := [], current_track_index := -1, track_counter := 0, state := Option.none }

/-- One step of the `for i, track in enumerate(tracks)` loop in
    `_get_selected_track_index`: first index whose dict item has a truthy
    `selected`, else -1. -/
def findSelected : List PyVal → Int → Int
  | [], _ => -1
  | t :: rest, i =>
    match t with
    | .dict td => if truthy (pyGet td "selected" (.bool false)) then i else findSelected rest (i + 1)
    | _ => findSelected rest (i + 1)

/-- `MagdaDSLGrammar._get_selected_track_index`: -1 when `self.state` is None,
    else unwrap the optional `"state"` wrapper, read `"tracks"` (default `[]`),
    and return the first index with a truthy `selected` field, else -1.
    A non-dict wrapper value or a non-list `tracks` value would raise in
    Python (`.get` on a non-dict / iterating a non-iterable); tracked here as
    errors. Iterating a str or dict visits strings, which are skipped. -/
def getSelectedTrackIndex (st : Option Dict) : Except String Int :=
  match st with
  | Option.none => .ok (-1)
  | some d =>
    match pyGet d "state" (.dict d) with
    | .dict dm =>
      match pyGet dm "tracks" (.list []) with
      | .list ts => .ok (findSelected ts 0)
      | .str s => .ok (findSelected (s.data.map (fun c => .str (String.mk [c]))) 0)
      | .dict es => .ok (findSelected (es.map (fun e => .str e.1)) 0)
      | v =>
        let tn := typeName v
        .error ("TypeError: " ++ tn ++ " object is not iterable")
    | v =>
      let tn := typeName v
      .error ("AttributeError: " ++ tn ++ " object has no attribute get")

/-- `MagdaDSLGrammar.track`: reference by `id` (1-based), reference by
    `selected=True`, or creation (emits a `create_track` action dict and
    updates `track_counter` / `current_track_index`). -/
def track (instrument name : Option String) (index id : Option Int)
    (selected : Option Bool) (s : MagdaState) : Except String MagdaState :=
  match id with
  | some i => .ok { s with current_track_index := i - 1 }
  | Option.none =>
    if selected = some true then
      match getSelectedTrackIndex s.state with
      | .error e => .error e
      | .ok sel =>
        if sel ≥ 0 then .ok { s with current_track_index := sel }
        else .error "No selected track found in state"
    else
      let a0 : Dict := [("action", .str "create_track")]
      let a1 := match instrument with
        | some ins => dictSet a0 "instrument" (.str ins)
        | Option.none => a0
      let a2 := match name with
        | some nm => dictSet a1 "name" (.str nm)
        | Option.none => a1
      match index with
      | some ix =>
        .ok { s with actions := s.actions ++ [dictSet a2 "index" (.int ix)],
                     track_counter := ix + 1,
                     current_track_index := ix }
      | Option.none =>
        .ok { s with actions := s.actions ++ [dictSet a2 "index" (.int s.track_counter)],
                     track_counter := s.track_counter + 1,
                     current_track_index := s.track_counter }

/-- The track-resolution prologue of `MagdaDSLGrammar.new_clip` (its first
    six lines): the bound track, falling back to the selected track when
    `current_track_index < 0`, raising when neither resolves. -/
def resolveClipTrack (s : MagdaState) : Except String Int :=
  if s.current_track_index < 0 then
    match getSelectedTrackIndex s.state with
    | .error e => .error e
    | .ok sel =>
      if sel < 0 then .error "No track context for clip call and no selected track found"
      else .ok sel
  else .ok s.current_track_index

/-- `MagdaDSLGrammar.new_clip`: resolves the track via `resolveClipTrack`,
    then emits exactly one action: `create_clip_at_bar` when `bar` is given
    (default `length_bars` 4), else `create_clip` from `start` (default
    `length` 4.0), else `create_clip` from `position`, else raises.  The
    `end` argument is accepted but never read. -/
def new_clip (bar : Option Int) (start end_ : Option Rat) (length_bars : Option Int)
    (length position : Option Rat) (s : MagdaState) : Except String MagdaState :=
  match resolveClipTrack s with
  | .error e => .error e
  | .ok track_index =>
    let a0 : Dict := [("track", .int track_index)]
    match bar with
    | some b =>
      let a := dictSet (dictSet (dictSet a0 "action" (.str "create_clip_at_bar"))
                 "bar" (.int b)) "length_bars" (.int (length_bars.getD 4))
      .ok { s with actions := s.actions ++ [a] }
    | Option.none =>
      match start with
      | some st =>
        let a := dictSet (dictSet (dictSet a0 "action" (.str "create_clip"))
                   "position" (.float st)) "length" (.float (length.getD 4))
        .ok { s with actions := s.actions ++ [a] }
      | Option.none =>
        match position with
        | some p =>
          let a := dictSet (dictSet (dictSet a0 "action" (.str "create_clip"))
                     "position" (.float p)) "length" (.float (length.getD 4))
          .ok { s with actions := s.actions ++ [a] }
        | Option.none => .error "clip call must specify bar, start, or position"

/-- `MagdaDSLGrammar.add_midi`: requires a bound track, `note` (singular)
    overrides `notes`. -/
def add_midi (notes : Option (List PyVal)) (note : Option Dict)
    (s : MagdaState) : Except String MagdaState :=
  if s.current_track_index < 0 then .error "No track context for midi call"
  else
    let a0 : Dict := [("action", .str "add_midi"), ("track", .int s.current_track_index),
                      ("notes", .list (notes.getD []))]
    let a1 := match note with
      | some n => dictSet a0 "notes" (.list [.dict n])
      | Option.none => a0
    .ok { s with actions := s.actions ++ [a1] }

/-- `MagdaDSLGrammar.add_fx`: requires a bound track; `fxname` wins over
    `instrument` (which re-tags the action as `add_instrument`). -/
def add_fx (fxname instrument : Option String) (s : MagdaState) : Except String MagdaState :=
  if s.current_track_index < 0 then .error "No track context for FX call"
  else
    let a0 : Dict := [("action", .str "add_track_fx"), ("track", .int s.current_track_index)]
    match fxname with
    | some f => .ok { s with actions := s.actions ++ [dictSet a0 "fxname" (.str f)] }
    | Option.none =>
      match instrument with
      | some ins =>
        .ok { s with actions :=
                s.actions ++ [dictSet (dictSet a0 "action" (.str "add_instrument"))
                               "fxname" (.str ins)] }
      | Option.none => .error "FX call must specify fxname or instrument"

/-- `MagdaDSLGrammar.set_volume`. -/
def set_volume (volume_db : Rat) (s : MagdaState) : Except String MagdaState :=
  if s.current_track_index < 0 then .error "No track context for volume call"
  else .ok { s with actions := s.actions ++
        [[("action", .str "set_track_volume"), ("track", .int s.current_track_index),
          ("volume_db", .float volume_db)]] }

/-- `MagdaDSLGrammar.set_pan`. -/
def set_pan (pan : Rat) (s : MagdaState) : Except String MagdaState :=
  if s.current_track_index < 0 then .error "No track context for pan call"
  else .ok { s with actions := s.actions ++
        [[("action", .str "set_track_pan"), ("track", .int s.current_track_index),
          ("pan", .float pan)]] }

/-- `MagdaDSLGrammar.set_mute`. -/
def set_mute (mute : Bool) (s : MagdaState) : Except String MagdaState :=
  if s.current_track_index < 0 then .error "No track context for mute call"
  else .ok { s with actions := s.actions ++
        [[("action", .str "set_track_mute"), ("track", .int s.current_track_index),
          ("mute", .bool mute)]] }

/-- `MagdaDSLGrammar.set_solo`. -/
def set_solo (solo : Bool) (s : MagdaState) : Except String MagdaState :=
  if s.current_track_index < 0 then .error "No track context for solo call"
  else .ok { s with actions := s.actions ++
        [[("action", .str "set_track_solo"), ("track", .int s.current_track_index),
          ("solo", .bool solo)]] }

/-- `MagdaDSLGrammar.set_name`. -/
def set_name (name : String) (s : MagdaState) : Except String MagdaState :=
  if s.current_track_index < 0 then .error "No track context for name call"
  else .ok { s with actions := s.actions ++
        [[("action", .str "set_track_name"), ("track", .int s.current_track_index),
          ("name", .str name)]] }

/-- A sequence of `track(...)` creation calls (no `id`, no `selected`),
    each carrying its optional explicit `index`, run left to right. -/
def runCreations : List (Option Int) → MagdaState → Except String MagdaState
  | [], s => .ok s
  | ix :: rest, s =>
    match track Option.none Option.none ix Option.none Option.none s with
    | .ok s' => runCreations rest s'
    | .error e => .error e

end DP

/-! ## Python operator semantics used by `ReaperFunctionalInterpreter._evaluate_expression`

The operator table in the source applies the plain Python operators
(`lambda a, b: a + b`, etc.) to already-evaluated operands.  The fragment
relevant to DSL values is modelled below; operand combinations Python rejects
become `TypeError` results. -/

/-- Numeric view of a Python value: bool counts as 0/1, ints and floats as
    their value. -/
def toNum : PyVal → Option Rat
  | .bool b => some (if b then 1 else 0)
  | .int n => some (n : Rat)
  | .float q => some q
  | _ => Option.none

mutual

/-- Python `==` (never raises); bool/int/float compare numerically across
    types, other cross-type comparisons are unequal. -/
def pyEq : PyVal → PyVal → Bool
  | .none, .none => true
  | .str a, .str b => a == b
  | .list a, .list b => pyEqList a b
  | .dict a, .dict b => a.length == b.length && pyEqDictIncl a b
  | a, b =>
    match toNum a, toNum b with
    | some x, some y => x == y
    | _, _ => false

/-- Elementwise list equality (helper for `pyEq`). -/
def pyEqList : List PyVal → List PyVal → Bool
  | [], [] => true
  | x :: xs, y :: ys => pyEq x y && pyEqList xs ys
  | _, _ => false

/-- Every entry of the first dict is present (with `pyEq`-equal value) in the
    second (helper for `pyEq`; with the length check this is Python dict
    equality, dict keys being unique). -/
def pyEqDictIncl : List (String × PyVal) → List (String × PyVal) → Bool
  | [], _ => true
  | (k, v) :: rest, b =>
    (match dictLookup b k with
     | some w => pyEq v w
     | Option.none => false) && pyEqDictIncl rest b

end

/-- Python `<`: numbers cross-compare, strings and lists lexicographically,
    anything else raises `TypeError`. -/
def pyLt : PyVal → PyVal → Except String Bool
  | .str a, .str b => .ok (decide (a < b))
  | .list [], .list [] => .ok false
  | .list [], .list (_ :: _) => .ok true
  | .list (_ :: _), .list [] => .ok false
  | .list (x :: xs), .list (y :: ys) =>
    if pyEq x y then pyLt (.list xs) (.list ys) else pyLt x y
  | a, b =>
    match toNum a, toNum b with
    | some x, some y => .ok (decide (x < y))
    | _, _ => .error "TypeError: unsupported comparison"

/-- Python `<=` (see `pyLt`). -/
def pyLe : PyVal → PyVal → Except String Bool
  | .str a, .str b => .ok (decide (a ≤ b))
  | .list [], .list _ => .ok true
  | .list (_ :: _), .list [] => .ok false
  | .list (x :: xs), .list (y :: ys) =>
    if pyEq x y then pyLe (.list xs) (.list ys) else pyLt x y
  | a, b =>
    match toNum a, toNum b with
    | some x, some y => .ok (decide (x ≤ y))
    | _, _ => .error "TypeError: unsupported comparison"

/-- Whether the value is a Python float (for numeric result typing). -/
def isFloat : PyVal → Bool
  | .float _ => true
  | _ => false

/-- Result of int/float arithmetic: float if either operand is a float, else
    int (`q` is integral in that case). -/
def numResult (a b : PyVal) (q : Rat) : PyVal :=
  if isFloat a || isFloat b then .float q else .int q.num

/-- Python `+`: string and list concatenation, numeric addition. -/
def pyAdd : PyVal → PyVal → Except String PyVal
  | .str a, .str b => .ok (.str (a ++ b))
  | .list a, .list b => .ok (.list (a ++ b))
  | a, b =>
    match toNum a, toNum b with
    | some x, some y => .ok (numResult a b (x + y))
    | _, _ => .error "TypeError: unsupported operand types for +"

/-- Python `-`: numeric subtraction. -/
def pySub (a b : PyVal) : Except String PyVal :=
  match toNum a, toNum b with
  | some x, some y => .ok (numResult a b (x - y))
  | _, _ => .error "TypeError: unsupported operand types for -"

/-- Python sequence replication count. -/
def seqTimes (n : Int) : Nat := n.toNat

/-- Python `*`: numeric product, string/list replication by an int. -/
def pyMul : PyVal → PyVal → Except String PyVal
  | .str a, .int n => .ok (.str (String.join (List.replicate (seqTimes n) a)))
  | .int n, .str a => .ok (.str (String.join (List.replicate (seqTimes n) a)))
  | .list a, .int n => .ok (.list (List.flatten (List.replicate (seqTimes n) a)))
  | .int n, .list a => .ok (.list (List.flatten (List.replicate (seqTimes n) a)))
  | a, b =>
    match toNum a, toNum b with
    | some x, some y => .ok (numResult a b (x * y))
    | _, _ => .error "TypeError: unsupported operand types for *"

/-- Python `/`: true division, always a float; zero divisor raises. -/
def pyDiv (a b : PyVal) : Except String PyVal :=
  match toNum a, toNum b with
  | some x, some y =>
    if y = 0 then .error "ZeroDivisionError: division by zero"
    else .ok (.float (x / y))
  | _, _ => .error "TypeError: unsupported operand types for /"

/-- The `operators` table of `ReaperFunctionalInterpreter._evaluate_expression`,
    applied to two already-evaluated operands.  `and`/`or` are Python's value
    semantics on evaluated operands (`a and b` = `b` if `a` truthy else `a`);
    an operator outside the table raises `Unknown operator`. -/
def applyOp (op : String) (a b : PyVal) : Except String PyVal :=
  if op = "+" then pyAdd a b
  else if op = "-" then pySub a b
  else if op = "*" then pyMul a b
  else if op = "/" then pyDiv a b
  else if op = "==" then .ok (.bool (pyEq a b))
  else if op = "!=" then .ok (.bool (! pyEq a b))
  else if op = "<" then (pyLt a b).map .bool
  else if op = ">" then (pyLt b a).map .bool
  else if op = "<=" then (pyLe a b).map .bool
  else if op = ">=" then (pyLe b a).map .bool
  else if op = "and" then .ok (if truthy a then b else a)
  else if op = "or" then .ok (if truthy a then a else b)
  else .error ("Unknown operator: " ++ op)

namespace FP

/-!
Embedding of `dsl_parser_functional.py`: `ReaperFunctionalInterpreter` (AST
evaluation with iteration context) and the functional combinators of
`ReaperDSLGrammar`.  The interpreter's `_iteration_context` field and the
grammar's mutable fields are combined into `FuncState`, threaded explicitly.
-/

/-- Expression AST as consumed by `_evaluate_value`: literal `Value`,
    `PropertyAccess` (object name plus property path) or binary `Expression`
    (`grammar_school.ast` node shapes as used by the overridden evaluators). -/
inductive Node where
  | value (v : PyVal)
  | prop (objectName : String) (properties : List String)
  | expr (left : Node) (op : Option String) (right : Option Node)

/-- Mutable state visible to the functional interpreter: the grammar fields
    `current_track_index`, `track_counter`, `state`, `data`, `_actions` and
    the interpreter field `_iteration_context`. -/
structure FuncState where
  current_track_index : Int
  track_counter : Int
  state : Option Dict
  data : Dict
  actionsEmitted : List Dict
  iterationContext : List (String × PyVal)

/-- A Python callable usable as a combinator callback: takes the item, may
    read/write grammar state, returns a value or raises. -/
abbrev ItemFun := PyVal → FuncState → Except String (PyVal × FuncState)

/-- The grammar object's `@method` attribute table, as probed by
    `hasattr(self, func_name)` during function-reference resolution
    (bound methods close over the shared state, which is threaded
    explicitly here). -/
abbrev Methods := List (String × ItemFun)

/-- First-occurrence lookup in the method table. -/
def methodLookup (env : Methods) (k : String) : Option ItemFun :=
  match env with
  | [] => Option.none
  | (k2, f) :: rest => if k2 = k then some f else methodLookup rest k

/-- Plain (non-callable) attributes of the grammar object reachable by
    `getattr(self.dsl, name, None)` in `_evaluate_property_access`.
    A missing attribute and a `None`-valued one are both `None` there, which
    `.none` models exactly.  Method attributes (callables) as property-access
    roots are outside the modelled input space. -/
def dslAttr (s : FuncState) : String → PyVal
  | "current_track_index" => .int s.current_track_index
  | "track_counter" => .int s.track_counter
  | "state" => match s.state with
    | some d => .dict d
    | Option.none => .none
  | "data" => .dict s.data
  | _ => .none

/-- Whether `hasattr(self, name)` holds for a plain (non-method) attribute. -/
def hasPlainAttr (name : String) : Bool :=
  name = "current_track_index" || name = "track_counter" || name = "state" || name = "data"

/-- Python `str.isdigit()` on a path segment. -/
def isDigits (p : String) : Bool :=
  !p.isEmpty && p.data.all Char.isDigit

/-- The property-navigation loop of `_evaluate_property_access`: a dict
    segment uses `.get` (missing key gives `None`), a list segment with an
    all-digit name indexes (out of range raises `IndexError`), anything else
    raises naming the segment and the value's type.  Attribute lookup on
    plain data values (`hasattr(result, prop_name)`) is modelled as absent. -/
def navigate : PyVal → List String → Except String PyVal
  | v, [] => .ok v
  | v, p :: rest =>
    match v with
    | .dict d => navigate (pyGet d p .none) rest
    | .list xs =>
      if isDigits p then
        match xs.get? ((p.toNat?).getD 0) with
        | some x => navigate x rest
        | Option.none => .error "IndexError: list index out of range"
      else .error ("Property \x27" ++ p ++ "\x27 not found on list")
    | other =>
      let tn := typeName other
      .error ("Property \x27" ++ p ++ "\x27 not found on " ++ tn)

/-- `ReaperFunctionalInterpreter._evaluate_property_access`: the root name is
    resolved first against the iteration context, then as a grammar attribute,
    then in the `data` store; unresolved roots raise `Unknown object`. -/
def evalPropertyAccess (s : FuncState) (objectName : String) (properties : List String) :
    Except String PyVal :=
  match dictLookup s.iterationContext objectName with
  | some obj => navigate obj properties
  | Option.none =>
    match dslAttr s objectName with
    | .none =>
      match pyGet s.data objectName .none with
      | .none => .error ("Unknown object: " ++ objectName)
      | obj => navigate obj properties
    | obj => navigate obj properties

mutual

/-- Modelled from the spec: the base interpreter's node dispatch
    (`grammar_school.interpreter.Interpreter._evaluate_value` is external to
    src/); per spec §4.3 the node kinds are literal value, property access
    (delegated to the Resolver) and binary expression. -/
def evalValue (s : FuncState) : Node → Except String PyVal
  | .value v => .ok v
  | .prop o ps => evalPropertyAccess s o ps
  | .expr l op r => evalExprNode s l op r
termination_by n => sizeOf n
decreasing_by
  simp_wf
  cases op <;> simp <;> omega

/-- `ReaperFunctionalInterpreter._evaluate_expression` on an `Expression`
    node: no operator means evaluate the left value; otherwise evaluate the
    left operand, then the right operand (a missing right node evaluates to
    `None`), strictly and in that order, then apply the operator table. -/
def evalExprNode (s : FuncState) (left : Node) (op : Option String) (right : Option Node) :
    Except String PyVal :=
  match op with
  | Option.none => evalValue s left
  | some o =>
    match evalValue s left with
    | .error e => .error e
    | .ok lv =>
      match (match right with
             | some r => evalValue s r
             | Option.none => .ok PyVal.none) with
      | .error e => .error e
      | .ok rv => applyOp o lv rv
termination_by sizeOf left + sizeOf right + 1
decreasing_by
  all_goals simp_wf
  all_goals omega

end

/-- Collection argument of a combinator: a symbolic name looked up in `data`,
    or an actual value passed through (`collection: str | list`). -/
inductive CollArg where
  | name (s : String)
  | lit (v : PyVal)

/-- Predicate argument of `filter`, matching the `isinstance` branches of the
    source: an AST node (`Expression`/`PropertyAccess`/`Value`), a callable,
    or an already-evaluated bool.  (The residual fallback branch re-dispatches
    `_evaluate_value` on a non-node value and is outside the modelled input
    space.) -/
inductive PredArg where
  | ast (n : Node)
  | func (f : ItemFun)
  | boolean (b : Bool)

/-- Function argument of `map`/`for_each`/`reduce`: an `@name` reference, a
    callable, or a non-callable value (rejected at resolution). -/
inductive FuncArg where
  | name (s : String)
  | call (f : ItemFun)
  | value (v : PyVal)

/-- The inline iteration-variable derivation of `filter`/`map`/`for_each`:
    `collection.rstrip("s").rstrip("_chain")` (Python `rstrip` removes
    trailing characters of the set, not a suffix). -/
def iterVarInline (n : String) : String :=
  pyRstrip (pyRstrip n "s") "_chain"

/-- The unused helper `ReaperDSLGrammar._get_iter_var_from_collection`:
    additionally strips the `"_list"` character set and falls back to
    `"item"` for results shorter than 2 characters. -/
def get_iter_var_from_collection (collection_name : String) : String :=
  let var := pyRstrip (pyRstrip (pyRstrip collection_name "s") "_chain") "_list"
  if var = "" || var.length < 2 then "item" else var

/-- Collection resolution shared by `filter`/`map`/`for_each`: a string
    argument is looked up in `data` (default `[]`) and its name yields the
    iteration variable; a non-string argument is used directly with
    iteration variable `"item"`. -/
def resolveCollection (s : FuncState) : CollArg → PyVal × String
  | .name n => (pyGet s.data n (.list []), iterVarInline n)
  | .lit v => (v, "item")

/-- One predicate evaluation inside `filter`'s item loop (the state `s`
    already carries the iteration binding).  For a caught exception the
    source keeps the (here: unchanged) state; mutated-then-raised callables
    are outside the modelled input space. -/
def evalPred (p : PredArg) (item : PyVal) (s : FuncState) :
    Except String (PyVal × FuncState) :=
  match p with
  | .ast n =>
    match evalValue s n with
    | .ok v => .ok (v, s)
    | .error e => .error e
  | .func f => f item s
  | .boolean b => .ok (.bool b, s)

/-- The per-item loop of `filter`: bind `{iterVar: item}` as the iteration
    context, evaluate the predicate (an exception is caught, logged and the
    item skipped), then unconditionally clear the context (`finally`), and
    continue with the remaining items. -/
def filterLoop (iterVar : String) (p : PredArg) :
    List PyVal → FuncState → List PyVal × FuncState
  | [], s => ([], s)
  | item :: rest, s =>
    let s1 : FuncState := { s with iterationContext := [(iterVar, item)] }
    let (keep, s2) :=
      match evalPred p item s1 with
      | .ok (v, s') => (truthy v, s')
      | .error _ => (false, s1)
    let s3 : FuncState := { s2 with iterationContext := [] }
    let (restKept, sEnd) := filterLoop iterVar p rest s3
    ((if keep then [item] else []) ++ restKept, sEnd)

/-- `ReaperDSLGrammar.filter`: resolves the collection (a non-list is fatal:
    `Collection must be a list`), then runs the per-item loop. -/
def filter (s : FuncState) (collection : CollArg) (predicate : PredArg) :
    Except String (List PyVal × FuncState) :=
  let (actual, iterVar) := resolveCollection s collection
  match actual with
  | .list items => .ok (filterLoop iterVar predicate items s)
  | v =>
    let tn := typeName v
    .error ("Collection must be a list, got " ++ tn)

/-- Function-reference resolution of `map`/`for_each`/`reduce`: a string is
    stripped of leading `@` and looked up with `hasattr(self, …)` — a method
    resolves to its callable, a plain attribute is rejected as not callable,
    an unknown name is fatal (`Unknown function`); a non-callable argument is
    rejected as not callable. -/
def resolveFunc (env : Methods) (s : FuncState) : FuncArg → Except String ItemFun
  | .call f => .ok f
  | .value v =>
    let tn := typeName v
    .error ("Function must be callable, got " ++ tn)
  | .name n =>
    let fn := pyLstrip n "@"
    match methodLookup env fn with
    | some f => .ok f
    | Option.none =>
      if hasPlainAttr fn then
        let tn := typeName (dslAttr s fn)
        .error ("Function must be callable, got " ++ tn)
      else .error ("Unknown function: " ++ fn)

/-- The per-item loop of `map`: bind the iteration context, call the
    function (an exception is caught, logged and the item skipped), clear
    the context unconditionally, continue. -/
def mapLoop (iterVar : String) (f : ItemFun) :
    List PyVal → FuncState → List PyVal × FuncState
  | [], s => ([], s)
  | item :: rest, s =>
    let s1 : FuncState := { s with iterationContext := [(iterVar, item)] }
    let (res, s2) :=
      match f item s1 with
      | .ok (v, s') => (some v, s')
      | .error _ => (Option.none, s1)
    let s3 : FuncState := { s2 with iterationContext := [] }
    let (restRes, sEnd) := mapLoop iterVar f rest s3
    ((match res with
      | some v => [v]
      | Option.none => []) ++ restRes, sEnd)

/-- `ReaperDSLGrammar.map`: collection resolution (non-list fatal), then
    function resolution (unknown reference fatal), then the per-item loop. -/
def map (env : Methods) (s : FuncState) (func : FuncArg) (collection : CollArg) :
    Except String (List PyVal × FuncState) :=
  let (actual, iterVar) := resolveCollection s collection
  match actual with
  | .list items =>
    match resolveFunc env s func with
    | .ok f => .ok (mapLoop iterVar f items s)
    | .error e => .error e
  | v =>
    let tn := typeName v
    .error ("Collection must be a list, got " ++ tn)

/-- The per-item loop of `for_each`: like `map` but the return value is
    discarded; the function runs for its effect on the state. -/
def forEachLoop (iterVar : String) (f : ItemFun) :
    List PyVal → FuncState → FuncState
  | [], s => s
  | item :: rest, s =>
    let s1 : FuncState := { s with iterationContext := [(iterVar, item)] }
    let s2 :=
      match f item s1 with
      | .ok (_, s') => s'
      | .error _ => s1
    let s3 : FuncState := { s2 with iterationContext := [] }
    forEachLoop iterVar f rest s3

/-- `ReaperDSLGrammar.for_each`: collection resolution (non-list fatal), then
    function resolution (unknown reference fatal), then the effect loop. -/
def for_each (env : Methods) (s : FuncState) (collection : CollArg) (action_func : FuncArg) :
    Except String FuncState :=
  let (actual, iterVar) := resolveCollection s collection
  match actual with
  | .list items =>
    match resolveFunc env s action_func with
    | .ok f => .ok (forEachLoop iterVar f items s)
    | .error e => .error e
  | v =>
    let tn := typeName v
    .error ("Collection must be a list, got " ++ tn)

end FP

namespace AP

/-!
Embedding of `dsl_parser_action_paradigm.py`: the Action-paradigm grammar,
`_emit_action`, and the `MagdaActionCollector` runtime.
-/

/-- A `grammar_school.Action`: kind tag plus payload dict. -/
structure GSAction where
  kind : String
  payload : Dict
deriving Repr

/-- Mutable state of the Action-paradigm grammar together with its optional
    runtime: `runtime` is `some collector.actions` when a
    `MagdaActionCollector` is attached (the `DSLParserActionParadigm` wiring)
    and `Option.none` when `_runtime is None`; `fallbackActions` is
    `self._actions`.  `interpreterWired` models whether the external
    grammar-school base exposes the `self.interpreter.dsl._runtime` chain
    probed by the `track` handler (in the shipped wiring `interpreter.dsl`
    is this grammar, so that chain reaches the same `_runtime`). -/
structure APState where
  runtime : Option (List GSAction)
  fallbackActions : List GSAction
  interpreterWired : Bool
  current_track_index : Int
  track_counter : Int
  state : Option Dict
deriving Repr

/-- `MagdaActionCollector.execute`: collects the action by appending it. -/
def collector_execute (actions : List GSAction) (a : GSAction) : List GSAction :=
  actions ++ [a]

/-- `_emit_action`: pass the action to the runtime when one is attached, else
    store it in `self._actions`. -/
def emit_action (a : GSAction) (s : APState) : APState :=
  match s.runtime with
  | some l => { s with runtime := some (collector_execute l a) }
  | Option.none => { s with fallbackActions := s.fallbackActions ++ [a] }

/-- The grammar's action sink: the collector when a runtime is attached, else
    the `_actions` list. -/
def sink (s : APState) : List GSAction :=
  match s.runtime with
  | some l => l
  | Option.none => s.fallbackActions

/-- `_get_selected_track_index` of the Action-paradigm grammar (identical to
    the `dsl_parser.py` one). -/
def getSelectedTrackIndex (s : APState) : Except String Int :=
  DP.getSelectedTrackIndex s.state

/-- The emission epilogue of the Action-paradigm `track` handler: when the
    `self.interpreter.dsl._runtime` chain is present the action goes through
    the runtime (a `None` runtime silently drops it there), else it is
    appended to `self._actions`. -/
def track_emit_create (a : GSAction) (s : APState) : APState :=
  if s.interpreterWired then
    match s.runtime with
    | some l => { s with runtime := some (collector_execute l a) }
    | Option.none => s
  else { s with fallbackActions := s.fallbackActions ++ [a] }

/-- The Action-paradigm `track` handler: references set context only; a
    creation call builds the payload, updates the counters and emits a
    `create_track` action via `track_emit_create`. -/
def track (instrument name : Option String) (index id : Option Int)
    (selected : Option Bool) (s : APState) : Except String APState :=
  match id with
  | some i => .ok { s with current_track_index := i - 1 }
  | Option.none =>
    if selected = some true then
      match getSelectedTrackIndex s with
      | .error e => .error e
      | .ok sel =>
        if sel ≥ 0 then .ok { s with current_track_index := sel }
        else .error "No selected track found in state"
    else
      let p0 : Dict := []
      let p1 := match instrument with
        | some ins => dictSet p0 "instrument" (.str ins)
        | Option.none => p0
      let p2 := match name with
        | some nm => dictSet p1 "name" (.str nm)
        | Option.none => p1
      let (payload, counter', cur') := match index with
        | some ix => (dictSet p2 "index" (.int ix), ix + 1, ix)
        | Option.none => (dictSet p2 "index" (.int s.track_counter),
                          s.track_counter + 1, s.track_counter)
      let s' := { s with track_counter := counter', current_track_index := cur' }
      let a : GSAction := { kind := "create_track", payload := payload }
      .ok (track_emit_create a s')

/-- The Action-paradigm `new_clip` handler (same logic as `dsl_parser.py`,
    kind and payload separated, emission via `_emit_action`). -/
def new_clip (bar : Option Int) (start end_ : Option Rat) (length_bars : Option Int)
    (length position : Option Rat) (s : APState) : Except String APState :=
  let resolved : Except String Int :=
    if s.current_track_index < 0 then
      match getSelectedTrackIndex s with
      | .error e => .error e
      | .ok sel =>
        if sel < 0 then .error "No track context for clip call and no selected track found"
        else .ok sel
    else .ok s.current_track_index
  match resolved with
  | .error e => .error e
  | .ok track_index =>
    let p0 : Dict := [("track", .int track_index)]
    match bar with
    | some b =>
      let p := dictSet (dictSet p0 "bar" (.int b)) "length_bars" (.int (length_bars.getD 4))
      .ok (emit_action { kind := "create_clip_at_bar", payload := p } s)
    | Option.none =>
      match start with
      | some st =>
        let p := dictSet (dictSet p0 "position" (.float st)) "length" (.float (length.getD 4))
        .ok (emit_action { kind := "create_clip", payload := p } s)
      | Option.none =>
        match position with
        | some pz =>
          let p := dictSet (dictSet p0 "position" (.float pz)) "length" (.float (length.getD 4))
          .ok (emit_action { kind := "create_clip", payload := p } s)
        | Option.none => .error "clip call must specify bar, start, or position"

/-- The Action-paradigm `add_midi` handler. -/
def add_midi (notes : Option (List PyVal)) (note : Option Dict)
    (s : APState) : Except String APState :=
  if s.current_track_index < 0 then .error "No track context for midi call"
  else
    let p0 : Dict := [("track", .int s.current_track_index), ("notes", .list (notes.getD []))]
    let p1 := match note with
      | some n => dictSet p0 "notes" (.list [.dict n])
      | Option.none => p0
    .ok (emit_action { kind := "add_midi", payload := p1 } s)

/-- The Action-paradigm `add_fx` handler: `fxname` emits `add_track_fx`,
    else `instrument` emits `add_instrument`, else raises. -/
def add_fx (fxname instrument : Option String) (s : APState) : Except String APState :=
  if s.current_track_index < 0 then .error "No track context for FX call"
  else
    let p0 : Dict := [("track", .int s.current_track_index)]
    match fxname with
    | some f =>
      .ok (emit_action { kind := "add_track_fx", payload := dictSet p0 "fxname" (.str f) } s)
    | Option.none =>
      match instrument with
      | some ins =>
        .ok (emit_action { kind := "add_instrument", payload := dictSet p0 "fxname" (.str ins) } s)
      | Option.none => .error "FX call must specify fxname or instrument"

/-- The Action-paradigm `set_volume` handler. -/
def set_volume (volume_db : Rat) (s : APState) : Except String APState :=
  if s.current_track_index < 0 then .error "No track context for volume call"
  else .ok (emit_action
    { kind := "set_track_volume",
      payload := [("track", .int s.current_track_index), ("volume_db", .float volume_db)] } s)

/-- The Action-paradigm `set_pan` handler. -/
def set_pan (pan : Rat) (s : APState) : Except String APState :=
  if s.current_track_index < 0 then .error "No track context for pan call"
  else .ok (emit_action
    { kind := "set_track_pan",
      payload := [("track", .int s.current_track_index), ("pan", .float pan)] } s)

/-- The Action-paradigm `set_mute` handler. -/
def set_mute (mute : Bool) (s : APState) : Except String APState :=
  if s.current_track_index < 0 then .error "No track context for mute call"
  else .ok (emit_action
    { kind := "set_track_mute",
      payload := [("track", .int s.current_track_index), ("mute", .bool mute)] } s)

/-- The Action-paradigm `set_solo` handler. -/
def set_solo (solo : Bool) (s : APState) : Except String APState :=
  if s.current_track_index < 0 then .error "No track context for solo call"
  else .ok (emit_action
    { kind := "set_track_solo",
      payload := [("track", .int s.current_track_index), ("solo", .bool solo)] } s)

/-- The Action-paradigm `set_name` handler. -/
def set_name (name : String) (s : APState) : Except String APState :=
  if s.current_track_index < 0 then .error "No track context for name call"
  else .ok (emit_action
    { kind := "set_track_name",
      payload := [("track", .int s.current_track_index), ("name", .str name)] } s)

/-- A side-effect DSL call event: method name plus keyword arguments, as the
    external parser delivers them to the Action-paradigm grammar. -/
inductive Call where
  | track (instrument name : Option String) (index id : Option Int) (selected : Option Bool)
  | new_clip (bar : Option Int) (start end_ : Option Rat) (length_bars : Option Int)
      (length position : Option Rat)
  | add_midi (notes : Option (List PyVal)) (note : Option Dict)
  | add_fx (fxname instrument : Option String)
  | set_volume (volume_db : Rat)
  | set_pan (pan : Rat)
  | set_mute (mute : Bool)
  | set_solo (solo : Bool)
  | set_name (name : String)

/-- Dispatch of one call event to its handler. -/
def step : Call → APState → Except String APState
  | .track instrument name index id selected, s => track instrument name index id selected s
  | .new_clip bar start end_ length_bars length position, s =>
      new_clip bar start end_ length_bars length position s
  | .add_midi notes note, s => add_midi notes note s
  | .add_fx fxname instrument, s => add_fx fxname instrument s
  | .set_volume v, s => set_volume v s
  | .set_pan p, s => set_pan p s
  | .set_mute m, s => set_mute m s
  | .set_solo b, s => set_solo b s
  | .set_name n, s => set_name n s

/-- Interpretation of a whole program: calls are processed strictly in
    order; the first failing handler aborts the rest. -/
def run : List Call → APState → Except String APState
  | [], s => .ok s
  | c :: p, s =>
    match step c s with
    | .ok s' => run p s'
    | .error e => .error e

end AP

namespace DP

/-- The `create_track` action dict built by a `track(...)` creation call:
    `{"action": "create_track"}` plus the optional `instrument` and `name`
    fields, then the bound `index`. -/
def trackCreationPayload (instrument name : Option String) (ix : Int) : Dict :=
  let a0 : Dict := [("action", .str "create_track")]
  let a1 := match instrument with
    | some ins => dictSet a0 "instrument" (.str ins)
    | Option.none => a0
  let a2 := match name with
    | some nm => dictSet a1 "name" (.str nm)
    | Option.none => a1
  dictSet a2 "index" (.int ix)

/-- The action dict emitted by `new_clip` in the `bar` branch. -/
def clipAtBarPayload (t b : Int) (length_bars : Option Int) : Dict :=
  [("track", .int t), ("action", .str "create_clip_at_bar"),
   ("bar", .int b), ("length_bars", .int (length_bars.getD 4))]

/-- The action dict emitted by `new_clip` in the `start`/`position` branch. -/
def clipAtPosPayload (t : Int) (x : Rat) (length : Option Rat) : Dict :=
  [("track", .int t), ("action", .str "create_clip"),
   ("position", .float x), ("length", .float (length.getD 4))]

end DP

namespace FP

/-- The verdict `filter` reaches for one item under an AST predicate: the
    predicate evaluated with the item's iteration binding installed, a caught
    evaluation error counting as not kept. -/
def astKeep (s : FuncState) (iv : String) (n : Node) (it : PyVal) : Bool :=
  match evalValue { s with iterationContext := [(iv, it)] } n with
  | .ok v => truthy v
  | .error _ => false

end FP

/-- Follows the spec's words (§4.6 iteration-variable derivation), for
    comparison with the implementation: strip one trailing `s`, then strip a
    trailing `_chain` or `_list` suffix if present; if the result is empty or
    shorter than 2 characters, default to `item`. -/
def specIterVarDerivation (n : String) : String :=
  let suffixStrip := fun (s suf : String) =>
    if suf.data.isSuffixOf s.data
    then String.mk (s.data.take (s.data.length - suf.data.length))
    else s
  let v1 := suffixStrip n "s"
  let v2 :=
    if "_chain".data.isSuffixOf v1.data then suffixStrip v1 "_chain"
    else suffixStrip v1 "_list"
  if v2.data.length < 2 then "item" else v2

/-! ## Supporting lemmas -/

theorem resolveClipTrack_bound (s : DP.MagdaState) (h : ¬ s.current_track_index < 0) :
    DP.resolveClipTrack s = .ok s.current_track_index := by
  unfold DP.resolveClipTrack
  rw [if_neg h]

theorem resolveClipTrack_fallback (s : DP.MagdaState) (h : s.current_track_index < 0)
    (k : Int) (hk : DP.getSelectedTrackIndex s.state = .ok k) :
    DP.resolveClipTrack s =
      if k < 0 then .error "No track context for clip call and no selected track found"
      else .ok k := by
  unfold DP.resolveClipTrack
  rw [if_pos h, hk]

theorem new_clip_ok_shape (bar : Option Int) (start end_ : Option Rat) (lb : Option Int)
    (l pos : Option Rat) (s s' : DP.MagdaState)
    (h : DP.new_clip bar start end_ lb l pos s = .ok s') :
    s'.current_track_index = s.current_track_index ∧ s'.track_counter = s.track_counter ∧
    s'.state = s.state ∧ ∃ a, s'.actions = s.actions ++ [a] ∧ dictLookup a "end" = Option.none := by
  unfold DP.new_clip at h
  repeat' split at h
  all_goals first
    | (injection h with h; subst h; exact ⟨rfl, rfl, rfl, ⟨_, rfl, rfl⟩⟩)
    | (cases h)

theorem runCreations_replicate_none (N : Nat) :
    ∀ s : DP.MagdaState, ∃ s',
      DP.runCreations (List.replicate N Option.none) s = .ok s' ∧
      s'.track_counter = s.track_counter + N ∧
      (N = 0 → s'.current_track_index = s.current_track_index) ∧
      (1 ≤ N → s'.current_track_index = s.track_counter + (N : Int) - 1) := by
  induction N with
  | zero =>
    intro s
    exact ⟨s, rfl, by simp, fun _ => rfl, by omega⟩
  | succ n ih =>
    intro s
    obtain ⟨s', h1, h2, h3, h4⟩ := ih
      { s with actions :=
                 s.actions ++ [DP.trackCreationPayload Option.none Option.none s.track_counter],
               track_counter := s.track_counter + 1,
               current_track_index := s.track_counter }
    refine ⟨s', ?_, ?_, ?_, ?_⟩
    · rw [List.replicate_succ]
      exact h1
    · dsimp only at h2
      rw [h2]
      push_cast
      ring
    · intro h
      exact absurd h (by omega)
    · intro _
      by_cases hn : n = 0
      · subst hn
        have := h3 rfl
        dsimp only at this
        rw [this]
        push_cast
        ring
      · have := h4 (by omega)
        dsimp only at this
        rw [this]
        push_cast
        ring

/-! ## Claim theorems -/

/-- Claim C1 (counterexample): a snapshot with a selected track (index 0
    resolvable) together with `current_track_ref = -1` still makes
    `add_midi` and `set_volume` raise `NoTrackContext` — they do not fall
    back to the selected track — while `new_clip` on the very same state
    does fall back and succeeds. -/
theorem trackScopedFallbackCounterexample :
    DP.getSelectedTrackIndex
        (some [("tracks", PyVal.list [PyVal.dict [("selected", PyVal.bool true)]])]) = .ok 0 ∧
    DP.add_midi Option.none Option.none
        ⟨[], -1, 0, some [("tracks", PyVal.list [PyVal.dict [("selected", PyVal.bool true)]])]⟩ =
      .error "No track context for midi call" ∧
    DP.set_volume 0
        ⟨[], -1, 0, some [("tracks", PyVal.list [PyVal.dict [("selected", PyVal.bool true)]])]⟩ =
      .error "No track context for volume call" ∧
    DP.new_clip (some 1) Option.none Option.none Option.none Option.none Option.none
        ⟨[], -1, 0, some [("tracks", PyVal.list [PyVal.dict [("selected", PyVal.bool true)]])]⟩ =
      .ok ⟨[DP.clipAtBarPayload 0 1 Option.none], -1, 0,
           some [("tracks", PyVal.list [PyVal.dict [("selected", PyVal.bool true)]])]⟩ :=
  ⟨rfl, rfl, rfl, rfl⟩

/-- Claim C1 (amended): only `new_clip` falls back to the snapshot's selected
    track when no explicit binding exists (raising only if no selected track
    resolves); every other track-scoped operation (`add_midi`, `add_fx`,
    `set_volume`, `set_pan`, `set_mute`, `set_solo`, `set_name`) raises
    `NoTrackContext` immediately whenever `current_track_ref` is negative,
    even when a selected track exists. -/
theorem onlyNewClipFallsBack (s : DP.MagdaState) (h : s.current_track_index < 0) :
    (∀ notes note, DP.add_midi notes note s = .error "No track context for midi call") ∧
    (∀ fx ins, DP.add_fx fx ins s = .error "No track context for FX call") ∧
    (∀ v, DP.set_volume v s = .error "No track context for volume call") ∧
    (∀ p, DP.set_pan p s = .error "No track context for pan call") ∧
    (∀ m, DP.set_mute m s = .error "No track context for mute call") ∧
    (∀ b, DP.set_solo b s = .error "No track context for solo call") ∧
    (∀ n, DP.set_name n s = .error "No track context for name call") ∧
    (∀ (k b : Int) start end_ lb l pos, DP.getSelectedTrackIndex s.state = .ok k → 0 ≤ k →
       DP.new_clip (some b) start end_ lb l pos s =
         .ok { s with actions := s.actions ++ [DP.clipAtBarPayload k b lb] }) ∧
    (∀ (k : Int) bar start end_ lb l pos, DP.getSelectedTrackIndex s.state = .ok k → k < 0 →
       DP.new_clip bar start end_ lb l pos s =
         .error "No track context for clip call and no selected track found") := by
  refine ⟨?_, ?_, ?_, ?_, ?_, ?_, ?_, ?_, ?_⟩
  · intro notes note; unfold DP.add_midi; rw [if_pos h]
  · intro fx ins; unfold DP.add_fx; rw [if_pos h]
  · intro v; unfold DP.set_volume; rw [if_pos h]
  · intro p; unfold DP.set_pan; rw [if_pos h]
  · intro m; unfold DP.set_mute; rw [if_pos h]
  · intro b; unfold DP.set_solo; rw [if_pos h]
  · intro n; unfold DP.set_name; rw [if_pos h]
  · intro k b start end_ lb l pos hk hk0
    unfold DP.new_clip
    rw [resolveClipTrack_fallback s h k hk, if_neg (by omega)]
    rfl
  · intro k bar start end_ lb l pos hk hk0
    unfold DP.new_clip
    rw [resolveClipTrack_fallback s h k hk, if_pos hk0]

/-- Witness for C1 (amended) at the concrete counterexample snapshot. -/
theorem onlyNewClipFallsBackWitness :
    DP.add_midi Option.none Option.none
        ⟨[], -1, 0, some [("tracks", PyVal.list [PyVal.dict [("selected", PyVal.bool true)]])]⟩ =
      .error "No track context for midi call" ∧
    DP.new_clip (some 2) Option.none Option.none Option.none Option.none Option.none
        ⟨[], -1, 0, some [("tracks", PyVal.list [PyVal.dict [("selected", PyVal.bool true)]])]⟩ =
      .ok { (⟨[], -1, 0,
              some [("tracks", PyVal.list [PyVal.dict [("selected", PyVal.bool true)]])]⟩ :
              DP.MagdaState) with
            actions := [] ++ [DP.clipAtBarPayload 0 2 Option.none] } := by
  have H := onlyNewClipFallsBack
    ⟨[], -1, 0, some [("tracks", PyVal.list [PyVal.dict [("selected", PyVal.bool true)]])]⟩
    (by decide)
  exact ⟨H.1 Option.none Option.none,
         H.2.2.2.2.2.2.2.1 0 2 Option.none Option.none Option.none Option.none Option.none rfl
           (by decide)⟩

/-- Claim C5: a plain creation call consumes and post-increments the track
    counter and binds the consumed value; an explicit-index creation binds
    that index and sets the counter to index+1; from a fresh state the Nth
    plain creation call binds reference N-1; and a plain creation right
    after `track(index=k)` binds k+1. -/
theorem trackCreationCounter :
    (∀ (s : DP.MagdaState) instrument name,
      DP.track instrument name Option.none Option.none Option.none s =
        .ok { s with
               actions := s.actions ++ [DP.trackCreationPayload instrument name s.track_counter],
               track_counter := s.track_counter + 1,
               current_track_index := s.track_counter }) ∧
    (∀ (s : DP.MagdaState) instrument name (k : Int),
      DP.track instrument name (some k) Option.none Option.none s =
        .ok { s with
               actions := s.actions ++ [DP.trackCreationPayload instrument name k],
               track_counter := k + 1,
               current_track_index := k }) ∧
    (∀ N : Nat, 1 ≤ N → ∃ s',
      DP.runCreations (List.replicate N Option.none) DP.initState = .ok s' ∧
      s'.current_track_index = (N : Int) - 1 ∧ s'.track_counter = (N : Int)) ∧
    (∀ (s : DP.MagdaState) (k : Int), ∃ s',
      DP.runCreations [some k, Option.none] s = .ok s' ∧
      s'.current_track_index = k + 1 ∧ s'.track_counter = k + 1 + 1) := by
  refine ⟨fun s i n => rfl, fun s i n k => rfl, ?_, fun s k => ⟨_, rfl, rfl, rfl⟩⟩
  intro N hN
  obtain ⟨s', h1, h2, h3, h4⟩ := runCreations_replicate_none N DP.initState
  refine ⟨s', h1, ?_, ?_⟩
  · rw [h4 hN]
    simp [DP.initState]
  · rw [h2]
    simp [DP.initState]

/-- Witness for C5 at N = 2 from the fresh state. -/
theorem trackCreationCounterWitness :
    ∃ s', DP.runCreations (List.replicate 2 Option.none) DP.initState = .ok s' ∧
      s'.current_track_index = (2 : Int) - 1 ∧ s'.track_counter = ((2 : Nat) : Int) :=
  trackCreationCounter.2.2.1 2 (by omega)

/-- Claim C6: on a bound track `new_clip` emits exactly one action — with
    `bar` given it is `create_clip_at_bar{track, bar, length_bars}`
    (`length_bars` defaulting to 4), regardless of any `start`/`position`
    also given (precedence); otherwise `start`, then `position`, yields
    `create_clip{track, position, length}` with `length` defaulting to 4.0;
    with none of the three it raises `MissingClipAnchor` and emits nothing. -/
theorem newClipEmission (s : DP.MagdaState) (h : 0 ≤ s.current_track_index) :
    (∀ (b : Int) start end_ lb l pos,
      DP.new_clip (some b) start end_ lb l pos s =
        .ok { s with actions := s.actions ++ [DP.clipAtBarPayload s.current_track_index b lb] }) ∧
    (∀ (x : Rat) end_ lb l pos,
      DP.new_clip Option.none (some x) end_ lb l pos s =
        .ok { s with actions := s.actions ++ [DP.clipAtPosPayload s.current_track_index x l] }) ∧
    (∀ (p : Rat) end_ lb l,
      DP.new_clip Option.none Option.none end_ lb l (some p) s =
        .ok { s with actions := s.actions ++ [DP.clipAtPosPayload s.current_track_index p l] }) ∧
    (∀ end_ lb l,
      DP.new_clip Option.none Option.none end_ lb l Option.none s =
        .error "clip call must specify bar, start, or position") := by
  refine ⟨?_, ?_, ?_, ?_⟩ <;> intros <;> unfold DP.new_clip <;>
    rw [resolveClipTrack_bound s (by omega)] <;> rfl

/-- Witness for C6: a concrete bar-anchored clip call on a bound track. -/
theorem newClipEmissionWitness :
    DP.new_clip (some 3) Option.none Option.none (some 4) Option.none Option.none
        { actions := [], current_track_index := 0, track_counter := 1, state := Option.none } =
      .ok { actions := [DP.clipAtBarPayload 0 3 (some 4)], current_track_index := 0,
            track_counter := 1, state := Option.none } :=
  (newClipEmission ⟨[], 0, 1, Option.none⟩ (by decide)).1
    3 Option.none Option.none (some 4) Option.none Option.none

/-- Claim C9: when `new_clip` resolves its track via the selected-track
    fallback, `current_track_ref` stays -1 (and counter and snapshot are
    untouched), so an immediately following `add_midi`, `add_fx` or
    `set_volume` still has no track binding and raises. -/
theorem newClipFallbackFrame (s s' : DP.MagdaState) (h : s.current_track_index = -1)
    (bar : Option Int) (start end_ : Option Rat) (lb : Option Int) (l pos : Option Rat)
    (hok : DP.new_clip bar start end_ lb l pos s = .ok s') :
    s'.current_track_index = -1 ∧ s'.track_counter = s.track_counter ∧ s'.state = s.state ∧
    (∀ notes note, DP.add_midi notes note s' = .error "No track context for midi call") ∧
    (∀ fx ins, DP.add_fx fx ins s' = .error "No track context for FX call") ∧
    (∀ v, DP.set_volume v s' = .error "No track context for volume call") := by
  obtain ⟨hc, ht, hs, -⟩ := new_clip_ok_shape bar start end_ lb l pos s s' hok
  rw [h] at hc
  refine ⟨hc, ht, hs, ?_, ?_, ?_⟩
  · intro notes note
    unfold DP.add_midi
    rw [if_pos (by omega)]
  · intro fx ins
    unfold DP.add_fx
    rw [if_pos (by omega)]
  · intro v
    unfold DP.set_volume
    rw [if_pos (by omega)]

/-- Witness for C9: the fallback-resolved clip leaves the binding absent. -/
theorem newClipFallbackFrameWitness :
    ∃ s', DP.new_clip (some 1) Option.none Option.none Option.none Option.none Option.none
        ⟨[], -1, 0, some [("tracks", PyVal.list [PyVal.dict [("selected", PyVal.bool true)]])]⟩
        = .ok s' ∧
      (s'.current_track_index = -1 ∧
       DP.add_midi Option.none Option.none s' = .error "No track context for midi call") := by
  refine ⟨_, rfl, ?_⟩
  have := newClipFallbackFrame
    ⟨[], -1, 0, some [("tracks", PyVal.list [PyVal.dict [("selected", PyVal.bool true)]])]⟩
    _ rfl (some 1) Option.none Option.none Option.none Option.none Option.none rfl
  exact ⟨this.1, this.2.2.2.1 Option.none Option.none⟩

theorem sink_emit_action (a : AP.GSAction) (s : AP.APState) :
    AP.sink (AP.emit_action a s) = AP.sink s ++ [a] := by
  unfold AP.emit_action AP.sink
  cases hr : s.runtime <;> simp [AP.collector_execute]

theorem ap_new_clip_ok_shape (bar : Option Int) (start end_ : Option Rat) (lb : Option Int)
    (l pos : Option Rat) (s s' : AP.APState)
    (h : AP.new_clip bar start end_ lb l pos s = .ok s') :
    ∃ a, s' = AP.emit_action a s ∧ dictLookup a.payload "end" = Option.none := by
  unfold AP.new_clip at h
  repeat' split at h
  all_goals first
    | (injection h with h; subst h; exact ⟨_, rfl, rfl⟩)
    | (cases h)

/-- Claim C10: the `end` keyword argument of `new_clip` has no effect — for
    any two calls differing only in `end` the result (emitted action and
    context state) is identical, in both the direct and the Action-paradigm
    grammar, and no emitted action dict or payload carries an `"end"` key in
    either implementation. -/
theorem newClipEndIgnored :
    (∀ bar start e1 e2 lb l pos s,
       DP.new_clip bar start e1 lb l pos s = DP.new_clip bar start e2 lb l pos s) ∧
    (∀ bar start e1 e2 lb l pos s,
       AP.new_clip bar start e1 lb l pos s = AP.new_clip bar start e2 lb l pos s) ∧
    (∀ bar start end_ lb l pos s s', DP.new_clip bar start end_ lb l pos s = .ok s' →
       ∀ d ∈ s'.actions, d ∈ s.actions ∨ dictLookup d "end" = Option.none) ∧
    (∀ bar start end_ lb l pos (s s' : AP.APState),
       AP.new_clip bar start end_ lb l pos s = .ok s' →
       ∀ act ∈ AP.sink s', act ∈ AP.sink s ∨ dictLookup act.payload "end" = Option.none) := by
  refine ⟨fun _ _ _ _ _ _ _ _ => rfl, fun _ _ _ _ _ _ _ _ => rfl, ?_, ?_⟩
  · intro bar start end_ lb l pos s s' h d hd
    obtain ⟨-, -, -, a, ha, hend⟩ := new_clip_ok_shape bar start end_ lb l pos s s' h
    rw [ha] at hd
    rcases List.mem_append.mp hd with hmem | hmem
    · exact Or.inl hmem
    · rcases List.mem_singleton.mp hmem with rfl
      exact Or.inr hend
  · intro bar start end_ lb l pos s s' h act hmem
    obtain ⟨a, rfl, hend⟩ := ap_new_clip_ok_shape bar start end_ lb l pos s s' h
    rw [sink_emit_action] at hmem
    rcases List.mem_append.mp hmem with hm | hm
    · exact Or.inl hm
    · rcases List.mem_singleton.mp hm with rfl
      exact Or.inr hend

/-- Witness for C10 at a concrete pair of calls differing only in `end`. -/
theorem newClipEndIgnoredWitness :
    DP.new_clip (some 1) Option.none (some 9) Option.none Option.none Option.none
        ⟨[], 0, 1, Option.none⟩ =
      DP.new_clip (some 1) Option.none (some 7) Option.none Option.none Option.none
        ⟨[], 0, 1, Option.none⟩ ∧
    (∀ d ∈ [DP.clipAtBarPayload 0 1 Option.none],
       d ∈ ([] : List Dict) ∨ dictLookup d "end" = Option.none) ∧
    (∀ act ∈ AP.sink
        (⟨some [⟨"create_clip_at_bar",
                 [("track", PyVal.int 0), ("bar", PyVal.int 1), ("length_bars", PyVal.int 4)]⟩],
          [], true, 0, 1, Option.none⟩ : AP.APState),
       act ∈ AP.sink (⟨some [], [], true, 0, 1, Option.none⟩ : AP.APState) ∨
       dictLookup act.payload "end" = Option.none) :=
  ⟨newClipEndIgnored.1 (some 1) Option.none (some 9) (some 7) Option.none Option.none Option.none
      ⟨[], 0, 1, Option.none⟩,
   newClipEndIgnored.2.2.1 (some 1) Option.none (some 9) Option.none Option.none Option.none
      ⟨[], 0, 1, Option.none⟩ ⟨[DP.clipAtBarPayload 0 1 Option.none], 0, 1, Option.none⟩ rfl,
   newClipEndIgnored.2.2.2 (some 1) Option.none (some 9) Option.none Option.none Option.none
      ⟨some [], [], true, 0, 1, Option.none⟩
      ⟨some [⟨"create_clip_at_bar",
              [("track", PyVal.int 0), ("bar", PyVal.int 1), ("length_bars", PyVal.int 4)]⟩],
        [], true, 0, 1, Option.none⟩ rfl⟩





theorem filterLoop_cons (iv : String) (p : FP.PredArg) (item : PyVal) (rest : List PyVal)
    (s : FP.FuncState) :
    FP.filterLoop iv p (item :: rest) s =
      (let s1 : FP.FuncState := { s with iterationContext := [(iv, item)] }
       let kp := match FP.evalPred p item s1 with
         | .ok (v, s') => (truthy v, s')
         | .error _ => (false, s1)
       ((if kp.1 then [item] else []) ++
          (FP.filterLoop iv p rest { kp.2 with iterationContext := [] }).1,
        (FP.filterLoop iv p rest { kp.2 with iterationContext := [] }).2)) := rfl

theorem mapLoop_cons (iv : String) (f : FP.ItemFun) (item : PyVal) (rest : List PyVal)
    (s : FP.FuncState) :
    FP.mapLoop iv f (item :: rest) s =
      (let s1 : FP.FuncState := { s with iterationContext := [(iv, item)] }
       let rp := match f item s1 with
         | .ok (v, s') => (some v, s')
         | .error _ => (Option.none, s1)
       ((match rp.1 with
         | some v => [v]
         | Option.none => []) ++
          (FP.mapLoop iv f rest { rp.2 with iterationContext := [] }).1,
        (FP.mapLoop iv f rest { rp.2 with iterationContext := [] }).2)) := rfl

theorem forEachLoop_cons (iv : String) (f : FP.ItemFun) (item : PyVal) (rest : List PyVal)
    (s : FP.FuncState) :
    FP.forEachLoop iv f (item :: rest) s =
      (let s1 : FP.FuncState := { s with iterationContext := [(iv, item)] }
       let s2 := match f item s1 with
         | .ok (_, s') => s'
         | .error _ => s1
       FP.forEachLoop iv f rest { s2 with iterationContext := [] }) := rfl

theorem filterLoop_ast_result (iv : String) (n : FP.Node) :
    ∀ (items : List PyVal) (s : FP.FuncState),
      (FP.filterLoop iv (.ast n) items s).1 = items.filter (FP.astKeep s iv n) := by
  intro items
  induction items with
  | nil => intro s; rfl
  | cons it rest ih =>
    intro s
    rw [filterLoop_cons, List.filter_cons]
    cases hv : FP.evalValue { s with iterationContext := [(iv, it)] } n with
    | ok v =>
      have hk : FP.astKeep s iv n it = truthy v := by
        unfold FP.astKeep
        rw [hv]
      simp only [FP.evalPred, hv, hk]
      have htail := ih { s with iterationContext := [] }
      cases htruthy : truthy v <;> simp [htail, htruthy] <;> rfl
    | error e =>
      have hk : FP.astKeep s iv n it = false := by
        unfold FP.astKeep
        rw [hv]
      simp only [FP.evalPred, hv, hk]
      have htail := ih { s with iterationContext := [] }
      simp [htail]
      rfl

theorem filterLoop_error_skips (iv : String) (n : FP.Node) (item : PyVal) (rest : List PyVal)
    (s : FP.FuncState) (e : String)
    (h : FP.evalValue { s with iterationContext := [(iv, item)] } n = .error e) :
    FP.filterLoop iv (.ast n) (item :: rest) s =
      FP.filterLoop iv (.ast n) rest { s with iterationContext := [] } := by
  rw [filterLoop_cons]
  simp only [FP.evalPred, h]
  simp

theorem mapLoop_error_skips (iv : String) (f : FP.ItemFun) (item : PyVal) (rest : List PyVal)
    (s : FP.FuncState) (e : String)
    (h : f item { s with iterationContext := [(iv, item)] } = .error e) :
    FP.mapLoop iv f (item :: rest) s = FP.mapLoop iv f rest { s with iterationContext := [] } := by
  rw [mapLoop_cons]
  simp only [h]
  simp

theorem forEachLoop_error_skips (iv : String) (f : FP.ItemFun) (item : PyVal) (rest : List PyVal)
    (s : FP.FuncState) (e : String)
    (h : f item { s with iterationContext := [(iv, item)] } = .error e) :
    FP.forEachLoop iv f (item :: rest) s =
      FP.forEachLoop iv f rest { s with iterationContext := [] } := by
  rw [forEachLoop_cons]
  simp only [h]

theorem filterLoop_exit_clears (iv : String) (p : FP.PredArg) :
    ∀ (items : List PyVal) (s : FP.FuncState), items ≠ [] →
      (FP.filterLoop iv p items s).2.iterationContext = [] := by
  intro items
  induction items with
  | nil => intro s h; exact absurd rfl h
  | cons it rest ih =>
    intro s _
    rw [filterLoop_cons]
    cases rest with
    | nil => rfl
    | cons r rs => exact ih _ (by simp)

theorem mapLoop_exit_clears (iv : String) (f : FP.ItemFun) :
    ∀ (items : List PyVal) (s : FP.FuncState), items ≠ [] →
      (FP.mapLoop iv f items s).2.iterationContext = [] := by
  intro items
  induction items with
  | nil => intro s h; exact absurd rfl h
  | cons it rest ih =>
    intro s _
    rw [mapLoop_cons]
    cases rest with
    | nil => rfl
    | cons r rs => exact ih _ (by simp)

theorem forEachLoop_exit_clears (iv : String) (f : FP.ItemFun) :
    ∀ (items : List PyVal) (s : FP.FuncState), items ≠ [] →
      (FP.forEachLoop iv f items s).iterationContext = [] := by
  intro items
  induction items with
  | nil => intro s h; exact absurd rfl h
  | cons it rest ih =>
    intro s _
    rw [forEachLoop_cons]
    cases rest with
    | nil => rfl
    | cons r rs => exact ih _ (by simp)

theorem filter_name_list (s : FP.FuncState) (n : String) (items : List PyVal) (p : FP.PredArg)
    (h : pyGet s.data n (.list []) = .list items) :
    FP.filter s (.name n) p = .ok (FP.filterLoop (FP.iterVarInline n) p items s) := by
  unfold FP.filter
  simp only [FP.resolveCollection]
  rw [h]

theorem filter_name_nonlist (s : FP.FuncState) (n : String) (v : PyVal) (p : FP.PredArg)
    (h : pyGet s.data n (.list []) = v) (hne : ∀ xs, v ≠ PyVal.list xs) :
    FP.filter s (.name n) p = .error ("Collection must be a list, got " ++ typeName v) := by
  unfold FP.filter
  simp only [FP.resolveCollection]
  rw [h]
  cases v with
  | list xs => exact absurd rfl (hne xs)
  | none => rfl
  | bool b => rfl
  | int n => rfl
  | float q => rfl
  | str s => rfl
  | dict es => rfl

theorem map_name_nonlist (env : FP.Methods) (s : FP.FuncState) (n : String) (v : PyVal)
    (f : FP.FuncArg) (h : pyGet s.data n (.list []) = v) (hne : ∀ xs, v ≠ PyVal.list xs) :
    FP.map env s f (.name n) = .error ("Collection must be a list, got " ++ typeName v) := by
  unfold FP.map
  simp only [FP.resolveCollection]
  rw [h]
  cases v with
  | list xs => exact absurd rfl (hne xs)
  | none => rfl
  | bool b => rfl
  | int n => rfl
  | float q => rfl
  | str s => rfl
  | dict es => rfl

theorem for_each_name_nonlist (env : FP.Methods) (s : FP.FuncState) (n : String) (v : PyVal)
    (f : FP.FuncArg) (h : pyGet s.data n (.list []) = v) (hne : ∀ xs, v ≠ PyVal.list xs) :
    FP.for_each env s (.name n) f = .error ("Collection must be a list, got " ++ typeName v) := by
  unfold FP.for_each
  simp only [FP.resolveCollection]
  rw [h]
  cases v with
  | list xs => exact absurd rfl (hne xs)
  | none => rfl
  | bool b => rfl
  | int n => rfl
  | float q => rfl
  | str s => rfl
  | dict es => rfl

theorem resolveFunc_unknown (env : FP.Methods) (s : FP.FuncState) (fn : String)
    (hml : FP.methodLookup env (pyLstrip fn "@") = Option.none)
    (hattr : FP.hasPlainAttr (pyLstrip fn "@") = false) :
    FP.resolveFunc env s (.name fn) = .error ("Unknown function: " ++ pyLstrip fn "@") := by
  simp only [FP.resolveFunc]
  rw [hml, hattr]
  simp

theorem map_unknown_func (env : FP.Methods) (s : FP.FuncState) (fn : String) (coll : FP.CollArg)
    (items : List PyVal) (hcoll : (FP.resolveCollection s coll).1 = .list items)
    (hml : FP.methodLookup env (pyLstrip fn "@") = Option.none)
    (hattr : FP.hasPlainAttr (pyLstrip fn "@") = false) :
    FP.map env s (.name fn) coll = .error ("Unknown function: " ++ pyLstrip fn "@") := by
  unfold FP.map
  rw [show FP.resolveCollection s coll = ((FP.resolveCollection s coll).1,
        (FP.resolveCollection s coll).2) from rfl, hcoll,
      resolveFunc_unknown env s fn hml hattr]

theorem for_each_unknown_func (env : FP.Methods) (s : FP.FuncState) (fn : String)
    (coll : FP.CollArg) (items : List PyVal)
    (hcoll : (FP.resolveCollection s coll).1 = .list items)
    (hml : FP.methodLookup env (pyLstrip fn "@") = Option.none)
    (hattr : FP.hasPlainAttr (pyLstrip fn "@") = false) :
    FP.for_each env s coll (.name fn) = .error ("Unknown function: " ++ pyLstrip fn "@") := by
  unfold FP.for_each
  rw [show FP.resolveCollection s coll = ((FP.resolveCollection s coll).1,
        (FP.resolveCollection s coll).2) from rfl, hcoll,
      resolveFunc_unknown env s fn hml hattr]

/-- Claim C2 (counterexample): the implementation derives the iteration
    variable with Python `rstrip` character-set semantics, not suffix
    stripping: collection name `bass` yields variable `b`, while the claimed
    algorithm yields `bas`; name `s` yields the empty variable, not the
    claimed `item` default. -/
theorem iterVarDerivationCounterexample :
    FP.iterVarInline "bass" = "b" ∧ specIterVarDerivation "bass" = "bas" ∧
    ("b" : String) ≠ "bas" ∧
    FP.iterVarInline "s" = "" ∧ specIterVarDerivation "s" = "item" ∧
    (∀ st : FP.FuncState, (FP.resolveCollection st (.name "bass")).2 = "b") :=
  ⟨rfl, by decide, by decide, rfl, by decide, fun _ => rfl⟩

/-- Claim C2 (amended): in `filter`/`map`/`for_each` the iteration variable
    for a symbolic collection name is `name.rstrip("s").rstrip("_chain")` —
    each `rstrip` removes all trailing characters drawn from the given set —
    with no `_list` stripping and no `item` default (`item` is used only when
    the collection is passed as a literal value); the unused helper
    `_get_iter_var_from_collection` additionally rstrips `"_list"` and
    defaults to `item` below 2 characters.  The examples `tracks`→`track`,
    `fx_chain`→`fx`, `clips`→`clip`, `items`→`item` all hold. -/
theorem iterVarDerivationAmended :
    (∀ (st : FP.FuncState) n, (FP.resolveCollection st (.name n)).2 =
        pyRstrip (pyRstrip n "s") "_chain") ∧
    (∀ (st : FP.FuncState) v, (FP.resolveCollection st (.lit v)).2 = "item") ∧
    FP.iterVarInline "tracks" = "track" ∧ FP.iterVarInline "fx_chain" = "fx" ∧
    FP.iterVarInline "clips" = "clip" ∧ FP.iterVarInline "items" = "item" ∧
    FP.get_iter_var_from_collection "tracks" = "track" ∧
    FP.get_iter_var_from_collection "items_list" = "item" ∧
    FP.iterVarInline "items_list" = "items_list" :=
  ⟨fun _ _ => rfl, fun _ _ => rfl, rfl, rfl, rfl, rfl, rfl, rfl, rfl⟩

/-- Claim C7: binary expression evaluation is strict for every operator
    including `and`/`or`: the left operand is evaluated first (its failure
    propagates), then the right operand is always evaluated, so a failing
    right operand fails the whole expression even when the left operand
    would have decided it under short-circuiting. -/
theorem binaryEvalStrict (s : FP.FuncState) (l r : FP.Node) (op : String) :
    (∀ e, FP.evalValue s l = .error e →
       FP.evalExprNode s l (some op) (some r) = .error e) ∧
    (∀ v e, FP.evalValue s l = .ok v → FP.evalValue s r = .error e →
       FP.evalExprNode s l (some op) (some r) = .error e) := by
  constructor
  · intro e h
    simp [FP.evalExprNode, h]
  · intro v e h1 h2
    simp [FP.evalExprNode, h1, h2]

/-- Witness for C7: `false and <unresolvable property>` fails with the
    property error instead of short-circuiting to `false`. -/
theorem binaryEvalStrictWitness :
    FP.evalValue ⟨-1, 0, Option.none, [], [], []⟩ (.value (.bool false)) = .ok (.bool false) ∧
    FP.evalValue ⟨-1, 0, Option.none, [], [], []⟩ (.prop "nosuch" []) =
      .error "Unknown object: nosuch" ∧
    FP.evalExprNode ⟨-1, 0, Option.none, [], [], []⟩ (.value (.bool false)) (some "and")
        (some (.prop "nosuch" [])) = .error "Unknown object: nosuch" := by
  have h1 : FP.evalValue ⟨-1, 0, Option.none, [], [], []⟩ (.value (.bool false)) =
      .ok (.bool false) := by
    simp only [FP.evalValue]
  have h2 : FP.evalValue ⟨-1, 0, Option.none, [], [], []⟩ (.prop "nosuch" []) =
      .error "Unknown object: nosuch" := by
    simp only [FP.evalValue]
    rfl
  exact ⟨h1, h2,
    (binaryEvalStrict ⟨-1, 0, Option.none, [], [], []⟩ (.value (.bool false))
      (.prop "nosuch" []) "and").2 (.bool false) "Unknown object: nosuch" h1 h2⟩

/-- Claim C3: in `filter`/`map`/`for_each` a per-item evaluation failure is
    caught and only that item is skipped, iteration continuing (the filter
    result is exactly the items whose predicate evaluates without error to a
    truthy value); whereas a collection not resolving to a list
    (`NotASequence`) and an unknown `@function` reference abort the whole
    call with a fatal error. -/
theorem combinatorErrorPolicy :
    (∀ iv n items (s : FP.FuncState),
       (FP.filterLoop iv (.ast n) items s).1 = items.filter (FP.astKeep s iv n)) ∧
    (∀ iv n item rest (s : FP.FuncState) e,
       FP.evalValue { s with iterationContext := [(iv, item)] } n = .error e →
       FP.filterLoop iv (.ast n) (item :: rest) s =
         FP.filterLoop iv (.ast n) rest { s with iterationContext := [] }) ∧
    (∀ iv f item rest (s : FP.FuncState) e,
       f item { s with iterationContext := [(iv, item)] } = .error e →
       FP.mapLoop iv f (item :: rest) s = FP.mapLoop iv f rest { s with iterationContext := [] }) ∧
    (∀ iv f item rest (s : FP.FuncState) e,
       f item { s with iterationContext := [(iv, item)] } = .error e →
       FP.forEachLoop iv f (item :: rest) s =
         FP.forEachLoop iv f rest { s with iterationContext := [] }) ∧
    (∀ (s : FP.FuncState) n items p, pyGet s.data n (.list []) = .list items →
       FP.filter s (.name n) p = .ok (FP.filterLoop (FP.iterVarInline n) p items s)) ∧
    (∀ (s : FP.FuncState) n v p, pyGet s.data n (.list []) = v → (∀ xs, v ≠ .list xs) →
       FP.filter s (.name n) p = .error ("Collection must be a list, got " ++ typeName v)) ∧
    (∀ env (s : FP.FuncState) fn coll items, (FP.resolveCollection s coll).1 = .list items →
       FP.methodLookup env (pyLstrip fn "@") = Option.none →
       FP.hasPlainAttr (pyLstrip fn "@") = false →
       FP.map env s (.name fn) coll = .error ("Unknown function: " ++ pyLstrip fn "@") ∧
       FP.for_each env s coll (.name fn) = .error ("Unknown function: " ++ pyLstrip fn "@")) ∧
    (∀ env (s : FP.FuncState) n v f, pyGet s.data n (.list []) = v → (∀ xs, v ≠ .list xs) →
       FP.map env s f (.name n) = .error ("Collection must be a list, got " ++ typeName v) ∧
       FP.for_each env s (.name n) f =
         .error ("Collection must be a list, got " ++ typeName v)) :=
  ⟨filterLoop_ast_result, filterLoop_error_skips, mapLoop_error_skips,
   forEachLoop_error_skips, filter_name_list, filter_name_nonlist,
   fun env s fn coll items hcoll hml hattr =>
     ⟨map_unknown_func env s fn coll items hcoll hml hattr,
      for_each_unknown_func env s fn coll items hcoll hml hattr⟩,
   fun env s n v f h hne =>
     ⟨map_name_nonlist env s n v f h hne, for_each_name_nonlist env s n v f h hne⟩⟩

/-- Witness for C3: a failing predicate skips the item while the loop
    continues; an unknown `@boom` reference and a non-list collection are
    fatal. -/
theorem combinatorErrorPolicyWitness :
    FP.filterLoop "item" (.ast (.prop "zzz" [])) [.int 1] ⟨-1, 0, Option.none, [], [], []⟩ =
      FP.filterLoop "item" (.ast (.prop "zzz" [])) []
        { (⟨-1, 0, Option.none, [], [], []⟩ : FP.FuncState) with iterationContext := [] } ∧
    FP.map [] ⟨-1, 0, Option.none, [], [], []⟩ (.name "@boom") (.lit (.list [])) =
      .error ("Unknown function: " ++ pyLstrip "@boom" "@") ∧
    FP.filter ⟨-1, 0, Option.none, [("xs", .int 7)], [], []⟩ (.name "xs") (.boolean true) =
      .error ("Collection must be a list, got " ++ typeName (.int 7)) ∧
    FP.map [] ⟨-1, 0, Option.none, [("xs", .int 7)], [], []⟩
        (.call (fun it st => .ok (it, st))) (.name "xs") =
      .error ("Collection must be a list, got " ++ typeName (.int 7)) ∧
    FP.for_each [] ⟨-1, 0, Option.none, [("xs", .int 7)], [], []⟩ (.name "xs")
        (.call (fun it st => .ok (it, st))) =
      .error ("Collection must be a list, got " ++ typeName (.int 7)) := by
  have hbad : FP.evalValue
      { (⟨-1, 0, Option.none, [], [], []⟩ : FP.FuncState) with
        iterationContext := [("item", PyVal.int 1)] } (.prop "zzz" []) =
      .error "Unknown object: zzz" := by
    simp only [FP.evalValue]
    rfl
  refine ⟨combinatorErrorPolicy.2.1 "item" (.prop "zzz" []) (.int 1) []
            ⟨-1, 0, Option.none, [], [], []⟩ "Unknown object: zzz" hbad, ?_, ?_, ?_, ?_⟩
  · exact (combinatorErrorPolicy.2.2.2.2.2.2.1 [] ⟨-1, 0, Option.none, [], [], []⟩ "@boom"
      (.lit (.list [])) [] rfl rfl (by decide)).1
  · exact combinatorErrorPolicy.2.2.2.2.2.1 ⟨-1, 0, Option.none, [("xs", .int 7)], [], []⟩
      "xs" (.int 7) (.boolean true) rfl (fun xs h => by cases h)
  · exact (combinatorErrorPolicy.2.2.2.2.2.2.2 []
      ⟨-1, 0, Option.none, [("xs", .int 7)], [], []⟩ "xs" (.int 7)
      (.call (fun it st => .ok (it, st))) rfl (fun xs h => by cases h)).1
  · exact (combinatorErrorPolicy.2.2.2.2.2.2.2 []
      ⟨-1, 0, Option.none, [("xs", .int 7)], [], []⟩ "xs" (.int 7)
      (.call (fun it st => .ok (it, st))) rfl (fun xs h => by cases h)).2

/-- Claim C4: each combinator iteration installs `{iterVar: item}` as the
    whole iteration context, evaluates, and unconditionally clears the
    context before the next item (also when the evaluation raised); on exit
    of a non-empty loop the context is empty. -/
theorem iterationBindingCleared :
    (∀ iv p item rest (s : FP.FuncState),
       FP.filterLoop iv p (item :: rest) s =
         (let s1 : FP.FuncState := { s with iterationContext := [(iv, item)] }
          let kp := match FP.evalPred p item s1 with
            | .ok (v, s') => (truthy v, s')
            | .error _ => (false, s1)
          ((if kp.1 then [item] else []) ++
             (FP.filterLoop iv p rest { kp.2 with iterationContext := [] }).1,
           (FP.filterLoop iv p rest { kp.2 with iterationContext := [] }).2))) ∧
    (∀ iv f item rest (s : FP.FuncState),
       FP.mapLoop iv f (item :: rest) s =
         (let s1 : FP.FuncState := { s with iterationContext := [(iv, item)] }
          let rp := match f item s1 with
            | .ok (v, s') => (some v, s')
            | .error _ => (Option.none, s1)
          ((match rp.1 with
            | some v => [v]
            | Option.none => []) ++
             (FP.mapLoop iv f rest { rp.2 with iterationContext := [] }).1,
           (FP.mapLoop iv f rest { rp.2 with iterationContext := [] }).2))) ∧
    (∀ iv f item rest (s : FP.FuncState),
       FP.forEachLoop iv f (item :: rest) s =
         (let s1 : FP.FuncState := { s with iterationContext := [(iv, item)] }
          let s2 := match f item s1 with
            | .ok (_, s') => s'
            | .error _ => s1
          FP.forEachLoop iv f rest { s2 with iterationContext := [] })) ∧
    (∀ iv p items (s : FP.FuncState), items ≠ [] →
       (FP.filterLoop iv p items s).2.iterationContext = []) ∧
    (∀ iv f items (s : FP.FuncState), items ≠ [] →
       (FP.mapLoop iv f items s).2.iterationContext = []) ∧
    (∀ iv f items (s : FP.FuncState), items ≠ [] →
       (FP.forEachLoop iv f items s).iterationContext = []) :=
  ⟨filterLoop_cons, mapLoop_cons, forEachLoop_cons,
   filterLoop_exit_clears, mapLoop_exit_clears, forEachLoop_exit_clears⟩

/-- Witness for C4: concrete filter and for_each runs end with an empty
    iteration context, a stale pre-existing binding notwithstanding. -/
theorem iterationBindingClearedWitness :
    (FP.filterLoop "track" (.boolean true) [.int 1, .int 2]
        { (⟨-1, 0, Option.none, [], [], [("old", PyVal.str "x")]⟩ : FP.FuncState) with
          iterationContext := [("old", PyVal.str "x")] }).2.iterationContext = [] ∧
    (FP.forEachLoop "fx" (fun it s => .ok (it, s)) [.int 5]
        ⟨-1, 0, Option.none, [], [], []⟩).iterationContext = [] :=
  ⟨iterationBindingCleared.2.2.2.1 "track" (.boolean true) [.int 1, .int 2] _ (by simp),
   iterationBindingCleared.2.2.2.2.2 "fx" (fun it s => .ok (it, s)) [.int 5] _ (by simp)⟩

theorem sink_track_emit (a : AP.GSAction) (s : AP.APState) :
    ∃ t, AP.sink (AP.track_emit_create a s) = AP.sink s ++ t := by
  unfold AP.track_emit_create AP.sink
  cases hw : s.interpreterWired <;> cases hr : s.runtime
  · exact ⟨[a], by simp [hr]⟩
  · exact ⟨[], by simp [hr]⟩
  · exact ⟨[], by simp [hr]⟩
  · exact ⟨[a], by simp [hr, AP.collector_execute]⟩

theorem step_sink_extends (c : AP.Call) (s s' : AP.APState) (h : AP.step c s = .ok s') :
    ∃ t, AP.sink s' = AP.sink s ++ t := by
  cases c with
  | track instrument name index id selected =>
    simp only [AP.step] at h
    unfold AP.track at h
    repeat' split at h
    all_goals try dsimp only at h
    all_goals first
      | (injection h with h; subst h;
         first
           | exact ⟨[], by simp only [List.append_nil]; rfl⟩
           | exact sink_track_emit _ _)
      | (cases h)
  | new_clip bar start end_ lb l pos =>
    simp only [AP.step] at h
    unfold AP.new_clip at h
    repeat' split at h
    all_goals first
      | (injection h with h; subst h; exact ⟨_, sink_emit_action _ _⟩)
      | (cases h)
  | add_midi notes note =>
    simp only [AP.step] at h
    unfold AP.add_midi at h
    repeat' split at h
    all_goals first
      | (injection h with h; subst h; exact ⟨_, sink_emit_action _ _⟩)
      | (cases h)
  | add_fx fxname instrument =>
    simp only [AP.step] at h
    unfold AP.add_fx at h
    repeat' split at h
    all_goals first
      | (injection h with h; subst h; exact ⟨_, sink_emit_action _ _⟩)
      | (cases h)
  | set_volume v =>
    simp only [AP.step] at h
    unfold AP.set_volume at h
    split at h
    · cases h
    · injection h with h; subst h; exact ⟨_, sink_emit_action _ _⟩
  | set_pan p =>
    simp only [AP.step] at h
    unfold AP.set_pan at h
    split at h
    · cases h
    · injection h with h; subst h; exact ⟨_, sink_emit_action _ _⟩
  | set_mute m =>
    simp only [AP.step] at h
    unfold AP.set_mute at h
    split at h
    · cases h
    · injection h with h; subst h; exact ⟨_, sink_emit_action _ _⟩
  | set_solo b =>
    simp only [AP.step] at h
    unfold AP.set_solo at h
    split at h
    · cases h
    · injection h with h; subst h; exact ⟨_, sink_emit_action _ _⟩
  | set_name n =>
    simp only [AP.step] at h
    unfold AP.set_name at h
    split at h
    · cases h
    · injection h with h; subst h; exact ⟨_, sink_emit_action _ _⟩

theorem run_cons (c : AP.Call) (l : List AP.Call) (s : AP.APState) :
    AP.run (c :: l) s =
      match AP.step c s with
      | .ok s1 => AP.run l s1
      | .error e => .error e := rfl

theorem run_append_compose (p q : List AP.Call) :
    ∀ s : AP.APState, AP.run (p ++ q) s =
      match AP.run p s with
      | .ok s' => AP.run q s'
      | .error e => .error e := by
  induction p with
  | nil => intro s; rfl
  | cons c rest ih =>
    intro s
    cases hc : AP.step c s with
    | ok s1 =>
      rw [List.cons_append, run_cons, run_cons, hc]
      exact ih s1
    | error e =>
      rw [List.cons_append, run_cons, run_cons, hc]

theorem run_sink_extends (p : List AP.Call) :
    ∀ (s s' : AP.APState), AP.run p s = .ok s' → ∃ t, AP.sink s' = AP.sink s ++ t := by
  induction p with
  | nil =>
    intro s s' h
    injection h with h
    subst h
    exact ⟨[], by simp⟩
  | cons c rest ih =>
    intro s s' h
    unfold AP.run at h
    cases hc : AP.step c s with
    | ok s1 =>
      rw [hc] at h
      obtain ⟨t1, h1⟩ := step_sink_extends c s s1 hc
      obtain ⟨t2, h2⟩ := ih s1 s' h
      exact ⟨t1 ++ t2, by rw [h2, h1, List.append_assoc]⟩
    | error e =>
      rw [hc] at h
      cases h

/-- Claim C8: the collector and `_emit_action` append exactly one entry to
    the end of the action sink per emission; program interpretation composes
    sequentially (calls are processed strictly in order), and any successful
    step or run only ever extends the sink at its end — no action is removed,
    reordered or deduplicated. -/
theorem actionEmissionOrder :
    (∀ (l : List AP.GSAction) a, AP.collector_execute l a = l ++ [a]) ∧
    (∀ a (s : AP.APState), AP.sink (AP.emit_action a s) = AP.sink s ++ [a]) ∧
    (∀ (p q : List AP.Call) (s : AP.APState), AP.run (p ++ q) s =
       match AP.run p s with
       | .ok s' => AP.run q s'
       | .error e => .error e) ∧
    (∀ (c : AP.Call) (s s' : AP.APState), AP.step c s = .ok s' →
       ∃ t, AP.sink s' = AP.sink s ++ t) ∧
    (∀ (p : List AP.Call) (s s' : AP.APState), AP.run p s = .ok s' →
       ∃ t, AP.sink s' = AP.sink s ++ t) :=
  ⟨fun _ _ => rfl, sink_emit_action, fun p q s => run_append_compose p q s,
   step_sink_extends, fun p => run_sink_extends p⟩

/-- Witness for C8: a concrete three-call program run against an attached
    collector extends the (empty) sink. -/
theorem actionEmissionOrderWitness :
    ∃ t, AP.sink
        ⟨some [⟨"create_track", [("instrument", PyVal.str "Serum"), ("index", PyVal.int 0)]⟩,
               ⟨"create_clip_at_bar",
                [("track", PyVal.int 0), ("bar", PyVal.int 1), ("length_bars", PyVal.int 4)]⟩,
               ⟨"set_track_volume",
                [("track", PyVal.int 0), ("volume_db", PyVal.float (-3))]⟩],
         [], true, 0, 1, Option.none⟩
      = AP.sink ⟨some [], [], true, -1, 0, Option.none⟩ ++ t :=
  actionEmissionOrder.2.2.2.2
    [.track (some "Serum") Option.none Option.none Option.none Option.none,
     .new_clip (some 1) Option.none Option.none Option.none Option.none Option.none,
     .set_volume (-3)]
    ⟨some [], [], true, -1, 0, Option.none⟩ _ rfl
